import Mathlib

/-!
Verification of the nyx process supervisor core (src/nyx.c, src/state.c,
src/event.c) against its natural-language specification.  The C data model
and operations are shallowly embedded as executable Lean definitions; side
effects that matter to the claims (writes of the `StateValue` field and
posts on the per-state wakeup semaphore) are recorded in explicit effect
traces, and process-level non-return (abort, exec) is modelled with
`Option`.
-/

namespace Nyx

/-- The `state_e` enumeration of per-watch lifecycle values (order as in the
transition table of src/state.c and its column comment: INIT, UNMONITORED,
STARTING, RUNNING, STOPPING, STOPPED, QUIT). -/
inductive state_e
  | STATE_INIT
  | STATE_UNMONITORED
  | STATE_STARTING
  | STATE_RUNNING
  | STATE_STOPPING
  | STATE_STOPPED
  | STATE_QUIT
  deriving DecidableEq, Repr

/-- The fields of the C `state_t` that the claims are about: the current
`StateValue` (`state->state`) and the last known child pid (`state->pid`,
`0` meaning none).  `pid_t` is modelled as `Int`. -/
structure state_t where
  state : state_e
  pid : Int
  deriving DecidableEq, Repr

/-- Observable side effects on a `state_t`: a write of the `StateValue`
field, and a `sem_post` on the state's wakeup semaphore. -/
inductive Eff
  | writeState (v : state_e)
  | semPost
  deriving DecidableEq, Repr

/-- Model of `set_state` (src/state.c:33-38): write the new value into
`state->state`, then `sem_post` the wakeup semaphore.  Returns the updated
state together with its effect trace: exactly one write followed by exactly
one post. -/
def set_state (s : state_t) (value : state_e) : state_t × List Eff :=
  ({ s with state := value }, [Eff.writeState value, Eff.semPost])

/-- External collaborators consumed by the transition actions
(src/state.c): the result of `determine_pid(watch->name, nyx)` for this
watch (the external PID store, `0` = no candidate), the liveness probe
`check_process_running`, and the value `fork()` returns in the supervisor
process inside `spawn`. -/
structure Env where
  determine_pid : Int
  check_process_running : Int → Bool
  fork_ret : Int

/-- Model of `to_unmonitored` (src/state.c:47-80): with the local `pid` initialised
from `state->pid`, consult `determine_pid` when `pid < 1`; when the
resulting candidate is positive, probe `check_process_running` and set
`state->pid` to the candidate or clear it to `0`; finally `set_state` to
`STATE_RUNNING` or `STATE_STOPPED` according to the probe, and return 1. -/
def to_unmonitored (env : Env) (s : state_t) : state_t × List Eff × Bool :=
  let pid0 : Int := s.pid
  let pid : Int := if pid0 < 1 then env.determine_pid else pid0
  let probe : Bool × state_t :=
    if pid > 0 then
      let alive := env.check_process_running pid
      (alive, { s with pid := if alive then pid else 0 })
    else
      (false, s)
  let written := set_state probe.2
    (if probe.1 then state_e.STATE_RUNNING else state_e.STATE_STOPPED)
  (written.1, written.2, true)

/-- Model of `stop` (src/state.c:82-88): logs and returns 1. -/
def stop (s : state_t) : state_t × List Eff × Bool :=
  (s, [], true)

/-- Model of `running` (src/state.c:203-209): logs and returns 1. -/
def running (s : state_t) : state_t × List Eff × Bool :=
  (s, [], true)

/-- Model of `stopped` (src/state.c:193-201): `set_state` to `STATE_STARTING` and
return 1. -/
def stopped (s : state_t) : state_t × List Eff × Bool :=
  let written := set_state s state_e.STATE_STARTING
  (written.1, written.2, true)

/-- Outcome of the `fork()` call in `spawn` (src/state.c:90-100): `-1`
makes the parent `log_critical_perror` (which aborts the whole process),
`0` continues in the child (which `execvp`s or exits and never returns to
the state loop), a positive value is the child PID returned to the
parent. -/
inductive SpawnRes
  | critAbort
  | childPath
  | parentRet (pid : Int)
  deriving DecidableEq, Repr

/-- Model of `spawn` (src/state.c:90-170) as seen by the supervisor process, keyed
on what `fork()` returned. -/
def spawn (fork_ret : Int) : SpawnRes :=
  if fork_ret = -1 then SpawnRes.critAbort
  else if fork_ret = 0 then SpawnRes.childPath
  else SpawnRes.parentRet fork_ret

/-- Model of `start_state` (src/state.c:172-181): `pid = spawn(state)`; record the
child pid in `state->pid` when it is positive.  `none` models the paths on
which control never returns to the caller (fork failure aborts the
process; in the child `spawn` never returns). -/
def start_state (fork_ret : Int) (s : state_t) : Option state_t :=
  match spawn fork_ret with
  | SpawnRes.critAbort => none
  | SpawnRes.childPath => none
  | SpawnRes.parentRet pid =>
      some (if pid > 0 then { s with pid := pid } else s)

/-- Model of `start` (src/state.c:183-191): run `start_state` and return 1. -/
def start (env : Env) (s : state_t) : Option (state_t × List Eff × Bool) :=
  (start_state env.fork_ret s).map (fun s1 => (s1, ([] : List Eff), true))

/-- The `errno` value for a missing executable. -/
def ENOENT : Nat := 2

/-- How the child of `spawn` ends after the `execvp` call
(src/state.c:161-166). -/
inductive ChildOutcome
  | execReplaced
  | exitSuccess
  | abortCritical
  deriving DecidableEq, Repr

/-- The child side of `spawn` after `execvp(executable, args)`
(src/state.c:161-166): `none` errno means `execvp` succeeded and the
process image was replaced; errno `ENOENT` leads to `exit(EXIT_SUCCESS)`;
any other errno reaches `log_critical_perror`, which aborts the child. -/
def child_after_exec (exec_errno : Option Nat) : ChildOutcome :=
  match exec_errno with
  | none => ChildOutcome.execReplaced
  | some e =>
      if e = ENOENT then ChildOutcome.exitSuccess else ChildOutcome.abortCritical

/-- The identity of a transition action stored in `transition_table`
(src/state.c:213-233); `transition_func_t` in the C source is a function
pointer, modelled here as a tag interpreted by `run_action`. -/
inductive transition_func
  | to_unmonitored
  | start
  | stop
  | stopped
  | running
  deriving DecidableEq, Repr

/-- Interpretation of a `transition_func` tag as the corresponding C
action; `none` models the paths on which the action never returns
(see `start_state`). -/
def run_action : transition_func → Env → state_t →
    Option (state_t × List Eff × Bool)
  | transition_func.to_unmonitored, env, s => some (to_unmonitored env s)
  | transition_func.start, env, s => start env s
  | transition_func.stop, _, s => some (stop s)
  | transition_func.stopped, _, s => some (stopped s)
  | transition_func.running, _, s => some (running s)

/-- Model of `transition_table` (src/state.c:213-233), rows = from, columns = to;
cells missing from the C initialiser lists are zero-filled, i.e. `NULL`,
modelled as `none`.  The whole `STATE_QUIT` row is `{ NULL }`. -/
def transition_table : state_e → state_e → Option transition_func
  | state_e.STATE_INIT, state_e.STATE_UNMONITORED =>
      some transition_func.to_unmonitored
  | state_e.STATE_UNMONITORED, state_e.STATE_STARTING =>
      some transition_func.start
  | state_e.STATE_UNMONITORED, state_e.STATE_RUNNING =>
      some transition_func.running
  | state_e.STATE_UNMONITORED, state_e.STATE_STOPPING =>
      some transition_func.stop
  | state_e.STATE_UNMONITORED, state_e.STATE_STOPPED =>
      some transition_func.stopped
  | state_e.STATE_STARTING, state_e.STATE_UNMONITORED =>
      some transition_func.to_unmonitored
  | state_e.STATE_STARTING, state_e.STATE_RUNNING =>
      some transition_func.running
  | state_e.STATE_STARTING, state_e.STATE_STOPPING =>
      some transition_func.stop
  | state_e.STATE_STARTING, state_e.STATE_STOPPED =>
      some transition_func.stopped
  | state_e.STATE_RUNNING, state_e.STATE_UNMONITORED =>
      some transition_func.to_unmonitored
  | state_e.STATE_RUNNING, state_e.STATE_STOPPING =>
      some transition_func.stop
  | state_e.STATE_RUNNING, state_e.STATE_STOPPED =>
      some transition_func.stopped
  | state_e.STATE_STOPPING, state_e.STATE_UNMONITORED =>
      some transition_func.to_unmonitored
  | state_e.STATE_STOPPING, state_e.STATE_STOPPED =>
      some transition_func.stopped
  | state_e.STATE_STOPPED, state_e.STATE_UNMONITORED =>
      some transition_func.to_unmonitored
  | state_e.STATE_STOPPED, state_e.STATE_STARTING =>
      some transition_func.start
  | _, _ => none

/-- Model of `process_state` (src/state.c:336-362): look up
`transition_table[old_state][new_state]`; a `NULL` entry means the
transition is not allowed and 0 is returned; otherwise the action runs and
its result is returned. -/
def process_state (env : Env) (s : state_t) (old_state new_state : state_e) :
    Option (state_t × List Eff × Bool) :=
  match transition_table old_state new_state with
  | none => some (s, [], false)
  | some f => run_action f env s

/-- One iteration of the body of `state_loop` (src/state.c:364-416) after
`sem_wait` returns, given the loop variable `last_state`.  Result:
`(state after the iteration, new last_state, loop broken?, effect trace)`;
`none` when the iteration never returns (see `run_action`).  `STATE_QUIT`
is handled immediately by `break`; an unchanged value is a no-op; a failed
`process_state` restores `last_state` into `state->state` with a bare
write (no `sem_post`), and `last_state` is then updated to
`current_state` unconditionally. -/
def state_loop_iter (env : Env) (s : state_t) (last_state : state_e) :
    Option (state_t × state_e × Bool × List Eff) :=
  let current_state := s.state
  if current_state = state_e.STATE_QUIT then
    some (s, last_state, true, [])
  else if last_state ≠ current_state then
    match process_state env s last_state current_state with
    | none => none
    | some psr =>
        if psr.2.2 then
          some (psr.1, current_state, false, psr.2.1)
        else
          some ({ psr.1 with state := last_state }, current_state, false,
                psr.2.1 ++ [Eff.writeState last_state])
  else
    some (s, current_state, false, [])

/-- One list node of `nyx->states` as seen by `dispatch_poll_result`
(src/state.c:249-264): the `data` pointer may be `NULL`. -/
def dispatch_step (pid : Int) (is_running : Bool) (node : Option state_t) :
    Option state_t × List Eff :=
  match node with
  | none => (none, [])
  | some s =>
      if s.pid = pid then
        let next_state :=
          if is_running then state_e.STATE_RUNNING else state_e.STATE_STOPPED
        if next_state ≠ s.state then
          let written := set_state s next_state
          (some written.1, written.2)
        else
          (some s, [])
      else
        (some s, [])

/-- Model of `dispatch_poll_result` (src/state.c:242-267): walk the whole
`nyx->states` list; for every non-`NULL` state whose `pid` equals the
argument, derive `next_state` from `running` and call `set_state` only
when it differs from the current value.  Returns the updated list and the
concatenated effect trace (the function itself always returns 1). -/
def dispatch_poll_result (pid : Int) (is_running : Bool) :
    List (Option state_t) → List (Option state_t) × List Eff
  | [] => ([], [])
  | node :: rest =>
      let stepped := dispatch_step pid is_running node
      let tail := dispatch_poll_result pid is_running rest
      (stepped.1 :: tail.1, stepped.2 ++ tail.2)

/-- The per-node result of `dispatch_poll_result`, written out as a plain
function for the characterisation theorems: a non-`NULL` state whose `pid`
matches and whose value differs from the derived target gets the target
written; every other node is unchanged. -/
def poll_new_node (pid : Int) (is_running : Bool) (node : Option state_t) :
    Option state_t :=
  node.map fun s =>
    if s.pid = pid ∧
        (if is_running then state_e.STATE_RUNNING else state_e.STATE_STOPPED)
          ≠ s.state then
      { s with state :=
          if is_running then state_e.STATE_RUNNING else state_e.STATE_STOPPED }
    else s

/-- Whether `dispatch_poll_result` issues a `set_state` for this node. -/
def poll_would_set (pid : Int) (is_running : Bool) (node : Option state_t) :
    Bool :=
  match node with
  | none => false
  | some s =>
      decide (s.pid = pid ∧
        (if is_running then state_e.STATE_RUNNING else state_e.STATE_STOPPED)
          ≠ s.state)

/-- The `what` discriminant of the kernel connector message
(`enum what` of `struct proc_event` in linux/cn_proc.h), restricted to the
opcodes named in src/event.c:141-181 plus a catch-all for every other
value reaching the `default` label. -/
inductive proc_what
  | PROC_EVENT_NONE
  | PROC_EVENT_FORK
  | PROC_EVENT_EXEC
  | PROC_EVENT_UID
  | PROC_EVENT_GID
  | PROC_EVENT_EXIT
  | PROC_EVENT_OTHER
  deriving DecidableEq, Repr

/-- The fork arm of the kernel `proc_event` union. -/
structure kernel_fork_event where
  parent_pid : Int
  parent_tgid : Int
  child_pid : Int
  child_tgid : Int
  deriving DecidableEq, Repr

/-- The exit arm of the kernel `proc_event` union. -/
structure kernel_exit_event where
  process_pid : Int
  process_tgid : Int
  exit_code : Int
  exit_signal : Int
  deriving DecidableEq, Repr

/-- A received `struct proc_event`: the discriminant plus both union arms
(the decoder reads only the arm selected by `what`). -/
structure proc_event where
  what : proc_what
  fork : kernel_fork_event
  exit : kernel_exit_event
  deriving DecidableEq, Repr

/-- The `type` tag of `process_event_data_t` (event.h is not part of the
sources under src/; the tag values are exactly the ones written by
src/event.c:144 and 160, plus the zero of the `xcalloc` in
`new_event_data`). -/
inductive event_type_e
  | EVENT_NONE
  | EVENT_FORK
  | EVENT_EXIT
  deriving DecidableEq, Repr

/-- The fork record filled by the decoder (field names as written in
src/event.c:146-149). -/
structure fork_data where
  parent_pid : Int
  parent_thread_group_id : Int
  child_pid : Int
  child_thread_group_id : Int
  deriving DecidableEq, Repr

/-- The exit record filled by the decoder (field names as written in
src/event.c:162-165). -/
structure exit_data where
  pid : Int
  exit_code : Int
  exit_signal : Int
  thread_group_id : Int
  deriving DecidableEq, Repr

/-- Model of `process_event_data_t`, the reusable decoder output buffer. -/
structure process_event_data_t where
  type : event_type_e
  fork : fork_data
  exit : exit_data
  deriving DecidableEq, Repr

/-- The zero-initialised buffer returned by `new_event_data`
(src/event.c:130-136, `xcalloc`). -/
def new_event_data : process_event_data_t :=
  ⟨event_type_e.EVENT_NONE, ⟨0, 0, 0, 0⟩, ⟨0, 0, 0, 0⟩⟩

/-- Model of `set_event_data` (src/event.c:138-184): on `PROC_EVENT_FORK` fill the
fork record and return the parent pid; on `PROC_EVENT_EXIT` fill the exit
record and return the exiting pid; on every other opcode (`NONE`, `EXEC`,
`UID`, `GID` and the `default` label) fall through to `return 0` leaving
the buffer untouched. -/
def set_event_data (data : process_event_data_t) (event : proc_event) :
    process_event_data_t × Int :=
  match event.what with
  | proc_what.PROC_EVENT_FORK =>
      let d := { data with
        type := event_type_e.EVENT_FORK
        fork := ⟨event.fork.parent_pid, event.fork.parent_tgid,
                 event.fork.child_pid, event.fork.child_tgid⟩ }
      (d, d.fork.parent_pid)
  | proc_what.PROC_EVENT_EXIT =>
      let d := { data with
        type := event_type_e.EVENT_EXIT
        exit := ⟨event.exit.process_pid, event.exit.exit_code,
                 event.exit.exit_signal, event.exit.process_tgid⟩ }
      (d, d.exit.pid)
  | _ => (data, 0)

/-- What `recv` on the netlink socket yields for one ready notification
inside `handle_process_event` (src/event.c:271-295): `0` (socket
shutdown), `-1` with errno `EINTR` or another errno, or a datagram of
`count > 0` bytes holding a `proc_event`. -/
inductive RecvRes
  | shutdown
  | fail (is_eintr : Bool)
  | msg (count : Int) (event : proc_event)
  deriving DecidableEq, Repr

/-- One ready descriptor reported by `epoll_wait`: the wakeup eventfd
(`nyx->event`) or the netlink socket with its `recv` outcome. -/
inductive Ready
  | eventfd
  | netlink (r : RecvRes)
  deriving DecidableEq, Repr

/-- The mutable locals of `handle_process_event` that the claims are
about: the `need_exit` flag, the running `rc`, and the pids handed to the
dispatch handler (in order). -/
structure LoopSt where
  need_exit : Bool
  rc : Int
  dispatched : List Int
  deriving DecidableEq, Repr

/-- The inner `for` loop of `handle_process_event` over one batch of ready
descriptors (src/event.c:259-297).  The eventfd branch drains, sets
`need_exit` and `rc = 1` and moves on; `recv = 0` sets `rc = 1` and
`break`s (leaving only this `for` loop); `-1`/`EINTR` sets `rc = 1` and
`continue`s; any other `-1` logs and `break`s with `rc = -1`; a datagram
sets `rc` to the byte count, decodes, and dispatches when the decoded pid
is positive.  The pid returned by `set_event_data` depends only on the
datagram, so the reusable buffer is passed as `new_event_data`. -/
def run_ready : LoopSt → List Ready → LoopSt
  | st, [] => st
  | st, Ready.eventfd :: rest =>
      run_ready { st with need_exit := true, rc := 1 } rest
  | st, Ready.netlink RecvRes.shutdown :: _ =>
      { st with rc := 1 }
  | st, Ready.netlink (RecvRes.fail true) :: rest =>
      run_ready { st with rc := 1 } rest
  | st, Ready.netlink (RecvRes.fail false) :: _ =>
      { st with rc := -1 }
  | st, Ready.netlink (RecvRes.msg count event) :: rest =>
      let pid := (set_event_data new_event_data event).2
      run_ready
        { st with
            rc := count
            dispatched :=
              if pid > 0 then st.dispatched ++ [pid] else st.dispatched }
        rest

/-- The outer `while (!need_exit)` loop of `handle_process_event`
(src/event.c:252-298), driven by the successive batches the calls to
`epoll_wait` would return.  Result: the final locals and the number of
supplied batches the loop never consumed (it stops consuming only once
`need_exit` is set). -/
def handle_process_event : LoopSt → List (List Ready) → LoopSt × Nat
  | st, [] => (st, 0)
  | st, batch :: rest =>
      if st.need_exit then (st, (batch :: rest).length)
      else handle_process_event (run_ready st batch) rest

/-- The option fields of `nyx_t` set by the getopt loop of
`nyx_initialize` (src/nyx.c:141-159). -/
structure nyx_options where
  quiet : Bool
  syslog : Bool
  no_color : Bool
  deriving DecidableEq, Repr

/-- One return of `getopt_long(argc, args, "qCh", long_options, NULL)`:
the recognised option characters, or `unknown` for the question mark
`getopt_long` yields on an unrecognised flag (for which the switch in
`nyx_initialize` has no case and no default). -/
inductive getopt_ret
  | q
  | s
  | C
  | h
  | unknown
  deriving DecidableEq, Repr

/-- Text nyx itself prints while parsing arguments: the usage line of
`print_usage` (src/nyx.c:30-34) and the option list of `print_help`
(src/nyx.c:36-47). -/
inductive CliOut
  | usage
  | help_text
  deriving DecidableEq, Repr

/-- How the argument loop of `nyx_initialize` ends: it falls through and
initialisation proceeds with the accumulated options, or `print_help`
prints usage plus help and calls `exit(EXIT_SUCCESS)`. -/
inductive ParseOutcome
  | proceed (opts : nyx_options)
  | exit_success
  deriving DecidableEq, Repr

/-- The getopt loop of `nyx_initialize` (src/nyx.c:141-159) over the
sequence of values `getopt_long` returns: `q`, `s`, `C` set their option
flags, `h` frees and runs `print_help` (usage, help text, exit success),
and the question mark returned for an unknown flag matches no case of the
switch, so the flag is ignored and the loop continues. -/
def nyx_parse_args (opts : nyx_options) :
    List getopt_ret → ParseOutcome × List CliOut
  | [] => (ParseOutcome.proceed opts, [])
  | getopt_ret.q :: rest => nyx_parse_args { opts with quiet := true } rest
  | getopt_ret.s :: rest => nyx_parse_args { opts with syslog := true } rest
  | getopt_ret.C :: rest => nyx_parse_args { opts with no_color := true } rest
  | getopt_ret.h :: _ =>
      (ParseOutcome.exit_success, [CliOut.usage, CliOut.help_text])
  | getopt_ret.unknown :: rest => nyx_parse_args opts rest

/-- Legality of `(from, to)` exactly as the table in §4.3 of the
specification lists it (rows `INIT`..`STOPPED`, columns
`UNMONITORED`..`STOPPED`, every transition out of `QUIT` illegal).  This
definition is written from the spec's words, to be compared with
`transition_table`, which is written from the source. -/
def spec_table_legal : state_e → state_e → Bool
  | state_e.STATE_INIT, state_e.STATE_UNMONITORED => true
  | state_e.STATE_UNMONITORED, state_e.STATE_STARTING => true
  | state_e.STATE_UNMONITORED, state_e.STATE_RUNNING => true
  | state_e.STATE_UNMONITORED, state_e.STATE_STOPPING => true
  | state_e.STATE_UNMONITORED, state_e.STATE_STOPPED => true
  | state_e.STATE_STARTING, state_e.STATE_UNMONITORED => true
  | state_e.STATE_STARTING, state_e.STATE_RUNNING => true
  | state_e.STATE_STARTING, state_e.STATE_STOPPING => true
  | state_e.STATE_STARTING, state_e.STATE_STOPPED => true
  | state_e.STATE_RUNNING, state_e.STATE_UNMONITORED => true
  | state_e.STATE_RUNNING, state_e.STATE_STOPPING => true
  | state_e.STATE_RUNNING, state_e.STATE_STOPPED => true
  | state_e.STATE_STOPPING, state_e.STATE_UNMONITORED => true
  | state_e.STATE_STOPPING, state_e.STATE_STOPPED => true
  | state_e.STATE_STOPPED, state_e.STATE_UNMONITORED => true
  | state_e.STATE_STOPPED, state_e.STATE_STARTING => true
  | _, _ => false

/-- Every transition action, when it returns at all, returns 1 and an
effect trace made only of complete `set_state` calls. -/
def set_state_shaped : List Eff → Bool
  | [] => true
  | Eff.writeState _ :: Eff.semPost :: rest => set_state_shaped rest
  | _ => false

theorem run_action_some (f : transition_func) (env : Env) (s : state_t)
    (r : state_t × List Eff × Bool) (h : run_action f env s = some r) :
    r.2.2 = true ∧ set_state_shaped r.2.1 = true := by
  cases f with
  | to_unmonitored =>
      injection h with h
      subst h
      exact ⟨rfl, rfl⟩
  | start =>
      cases hs : start_state env.fork_ret s with
      | none => simp [run_action, start, hs] at h
      | some s1 =>
          simp only [run_action, start, hs, Option.map_some'] at h
          injection h with h
          subst h
          exact ⟨rfl, rfl⟩
  | stop =>
      injection h with h
      subst h
      exact ⟨rfl, rfl⟩
  | stopped =>
      injection h with h
      subst h
      exact ⟨rfl, rfl⟩
  | running =>
      injection h with h
      subst h
      exact ⟨rfl, rfl⟩

theorem run_action_total (f : transition_func) (env : Env) (s : state_t)
    (hfork : 0 < env.fork_ret) :
    ∃ s1 effs, run_action f env s = some (s1, effs, true) := by
  cases f with
  | to_unmonitored => exact ⟨_, _, rfl⟩
  | start =>
      have h1 : ¬(env.fork_ret = -1) := by omega
      have h2 : ¬(env.fork_ret = 0) := by omega
      refine ⟨if env.fork_ret > 0 then { s with pid := env.fork_ret } else s,
        [], ?_⟩
      simp [run_action, start, start_state, spawn, h1, h2]
  | stop => exact ⟨_, _, rfl⟩
  | stopped => exact ⟨_, _, rfl⟩
  | running => exact ⟨_, _, rfl⟩

/-- Claim C1: for every pair `(from, to)` with `from ≠ to`, `process_state`
succeeds exactly when `transition_table` has a non-`NULL` entry at
`(from, to)`, the table's non-`NULL` cells are exactly the ones the §4.3
table of the spec lists (every transition out of `QUIT` illegal), and
whenever the attempted transition is illegal the state loop's handling of
the failure restores the `StateValue` to `from`.  (A pending value of
`QUIT` is consumed by the loop's termination check before any transition
is attempted, see C5, hence the guard on the third part.)  The hypothesis
`0 < fork_ret` says that the `fork` inside a possible `start` action
returns in the supervisor process. -/
theorem C1_transition_legality (env : Env) (s : state_t) (f t : state_e)
    (hne : f ≠ t) (hfork : 0 < env.fork_ret) (hcur : s.state = t) :
    (∀ a b : state_e, (transition_table a b).isSome = spec_table_legal a b) ∧
    ((∃ s1 effs, process_state env s f t = some (s1, effs, true)) ↔
      (transition_table f t).isSome) ∧
    (t ≠ state_e.STATE_QUIT → transition_table f t = none →
      ∃ s1 effs, state_loop_iter env s f = some (s1, t, false, effs) ∧
        s1.state = f) := by
  refine ⟨?_, ?_, ?_⟩
  · intro a b
    cases a <;> cases b <;> rfl
  · unfold process_state
    cases htab : transition_table f t with
    | none =>
        simp only [htab, Option.isSome_none, Bool.false_eq_true, iff_false]
        rintro ⟨s1, effs, hsome⟩
        injection hsome with hsome
        exact Bool.noConfusion (congrArg (fun p => p.2.2) hsome)
    | some a =>
        simp only [htab, Option.isSome_some, iff_true]
        exact run_action_total a env s hfork
  · intro hq htab
    refine ⟨{ s with state := f }, [Eff.writeState f], ?_, rfl⟩
    unfold state_loop_iter process_state
    simp [hcur, hq, hne, htab]

/-- Concrete collaborator environment for the witnesses: no candidate in
the PID store, no process alive, `fork` returning child pid 5. -/
def env0 : Env := ⟨0, fun _ => false, 5⟩

/-- Claim C1 witness: the theorem applied at the illegal pair
`(STOPPING, STARTING)` with a concrete state and environment. -/
theorem C1_witness :
    (state_e.STATE_STOPPING ≠ state_e.STATE_STARTING ∧ 0 < env0.fork_ret ∧
      (state_t.mk state_e.STATE_STARTING 0).state = state_e.STATE_STARTING) ∧
    ((∀ a b : state_e,
        (transition_table a b).isSome = spec_table_legal a b) ∧
     ((∃ s1 effs, process_state env0 ⟨state_e.STATE_STARTING, 0⟩
          state_e.STATE_STOPPING state_e.STATE_STARTING =
            some (s1, effs, true)) ↔
       (transition_table state_e.STATE_STOPPING
          state_e.STATE_STARTING).isSome) ∧
     (state_e.STATE_STARTING ≠ state_e.STATE_QUIT →
       transition_table state_e.STATE_STOPPING state_e.STATE_STARTING =
         none →
       ∃ s1 effs, state_loop_iter env0 ⟨state_e.STATE_STARTING, 0⟩
           state_e.STATE_STOPPING =
             some (s1, state_e.STATE_STARTING, false, effs) ∧
         s1.state = state_e.STATE_STOPPING)) :=
  ⟨⟨by decide, by decide, rfl⟩,
   C1_transition_legality env0 ⟨state_e.STATE_STARTING, 0⟩
     state_e.STATE_STOPPING state_e.STATE_STARTING
     (by decide) (by decide) rfl⟩

/-- Claim C5: once a State's value has been set to `STATE_QUIT` (as
`state_destroy` does through `set_state` before joining), the state loop's
next wake takes the `break` before any transition is attempted: the loop
exits with the state untouched (no transition action, no `pid` update, no
`StateValue` write) and an empty effect trace. -/
theorem C5_quit_dominance (env : Env) (s : state_t) (last_state : state_e)
    (h : s.state = state_e.STATE_QUIT) :
    state_loop_iter env s last_state = some (s, last_state, true, []) := by
  unfold state_loop_iter
  simp [h]

/-- Claim C5 witness: a state holding pid 3 that has been set to `QUIT`. -/
theorem C5_witness :
    state_loop_iter env0 ⟨state_e.STATE_QUIT, 3⟩ state_e.STATE_RUNNING =
      some (⟨state_e.STATE_QUIT, 3⟩, state_e.STATE_RUNNING, true, []) :=
  C5_quit_dominance env0 ⟨state_e.STATE_QUIT, 3⟩ state_e.STATE_RUNNING rfl

/-- Claim C7: in the spawn path of the `start` action, a `fork` failure
(`-1`) reaches the critical log-and-abort; in the child, `execvp` failing
with `ENOENT` makes the child exit with success and any other `execvp`
failure makes it abort with a critical log; the parent records a positive
returned child pid in `state->pid` and returns. -/
theorem C7_spawn_error_handling (fr : Int) (e : Nat) (s : state_t)
    (hfr : 0 < fr) (he : e ≠ ENOENT) :
    spawn (-1) = SpawnRes.critAbort ∧
    child_after_exec (some ENOENT) = ChildOutcome.exitSuccess ∧
    child_after_exec (some e) = ChildOutcome.abortCritical ∧
    start_state fr s = some { s with pid := fr } := by
  have h1 : ¬(fr = -1) := by omega
  have h2 : ¬(fr = 0) := by omega
  refine ⟨rfl, rfl, ?_, ?_⟩
  · simp [child_after_exec, he]
  · simp [start_state, spawn, h1, h2, hfr]

/-- Claim C7 witness: `fork` returning pid 5 and an `execvp` errno of 13
(`EACCES`). -/
theorem C7_witness :
    (0 < (5 : Int) ∧ (13 : Nat) ≠ ENOENT) ∧
    (spawn (-1) = SpawnRes.critAbort ∧
     child_after_exec (some ENOENT) = ChildOutcome.exitSuccess ∧
     child_after_exec (some 13) = ChildOutcome.abortCritical ∧
     start_state 5 ⟨state_e.STATE_STARTING, 0⟩ =
       some { state_t.mk state_e.STATE_STARTING 0 with pid := 5 }) :=
  ⟨⟨by decide, by decide⟩,
   C7_spawn_error_handling 5 13 ⟨state_e.STATE_STARTING, 0⟩
     (by decide) (by decide)⟩

/-- Claim C3 counterexample: the claim says there is no code path that
writes `StateValue` without a matching post, but the rollback after a
failed transition in `state_loop` (src/state.c:398) is exactly such a
path: on the illegal attempt `STOPPING → STARTING` the iteration writes
`STATE_STOPPING` back into `state->state` and its effect trace
`[writeState STOPPING]` contains a write with no `semPost`. -/
theorem C3_counterexample :
    state_loop_iter env0 ⟨state_e.STATE_STARTING, 0⟩ state_e.STATE_STOPPING =
      some (⟨state_e.STATE_STOPPING, 0⟩, state_e.STATE_STARTING, false,
            [Eff.writeState state_e.STATE_STOPPING]) ∧
    set_state_shaped [Eff.writeState state_e.STATE_STOPPING] = false := by
  exact ⟨by decide, rfl⟩

/-- Claim C3 (amended): `set_state` writes the new `StateValue` and then
posts exactly once; every write performed by a transition action or by
`dispatch_poll_result` goes through `set_state`, so their effect traces
are sequences of write-then-single-post pairs; the one exception is the
rollback in `state_loop` after a failed transition, whose unposted write
of the previous `last_state` is the only way a loop iteration's trace can
fail to be `set_state`-shaped. -/
theorem C3_amended_thm :
    (∀ (s : state_t) (v : state_e),
      set_state s v =
        ({ s with state := v }, [Eff.writeState v, Eff.semPost])) ∧
    (∀ (f : transition_func) (env : Env) (s : state_t)
        (r : state_t × List Eff × Bool),
      run_action f env s = some r → set_state_shaped r.2.1 = true) ∧
    (∀ (pid : Int) (is_running : Bool) (states : List (Option state_t)),
      set_state_shaped (dispatch_poll_result pid is_running states).2 =
        true) ∧
    (∀ (env : Env) (s : state_t) (last_state : state_e)
        (r : state_t × state_e × Bool × List Eff),
      state_loop_iter env s last_state = some r →
      set_state_shaped r.2.2.2 = false →
      r.2.2.2.getLast? = some (Eff.writeState last_state)) := by
  refine ⟨fun s v => rfl, fun f env s r h => (run_action_some f env s r h).2,
    ?_, ?_⟩
  · intro pid is_running states
    induction states with
    | nil => rfl
    | cons node rest ih =>
        cases node with
        | none => simpa [dispatch_poll_result, dispatch_step] using ih
        | some s =>
            by_cases hp : s.pid = pid
            · by_cases hn :
                  (if is_running then state_e.STATE_RUNNING
                   else state_e.STATE_STOPPED) ≠ s.state
              · simpa [dispatch_poll_result, dispatch_step, hp, hn,
                  set_state, set_state_shaped] using ih
              · simpa [dispatch_poll_result, dispatch_step, hp, hn] using ih
            · simpa [dispatch_poll_result, dispatch_step, hp] using ih
  · intro env s last_state r h hbad
    unfold state_loop_iter at h
    by_cases hq : s.state = state_e.STATE_QUIT
    · simp only [hq, if_pos, reduceIte] at h
      injection h with h
      subst h
      simp [set_state_shaped] at hbad
    · by_cases hne : last_state = s.state
      · simp only [hq, reduceIte, hne, ne_eq, not_true_eq_false] at h
        injection h with h
        subst h
        simp [set_state_shaped] at hbad
      · simp only [hq, reduceIte, ne_eq, hne, not_false_eq_true] at h
        unfold process_state at h
        cases htab : transition_table last_state s.state with
        | none =>
            simp only [htab] at h
            injection h with h
            subst h
            simp
        | some f =>
            simp only [htab] at h
            cases hra : run_action f env s with
            | none => simp [hra] at h
            | some psr =>
                obtain ⟨ht, hshape⟩ := run_action_some f env s psr hra
                simp only [hra, ht, reduceIte] at h
                injection h with h
                subst h
                simp only at hbad
                rw [hshape] at hbad
                exact Bool.noConfusion hbad

/-- Claim C3 amended witness: the second part applied to the `stopped`
action (whose trace is one complete `set_state` call), and the fourth part
applied to the concrete failed-transition iteration, whose trace ends in
the unposted rollback write. -/
theorem C3_amended_witness :
    set_state_shaped [Eff.writeState state_e.STATE_STARTING, Eff.semPost] =
      true ∧
    ([Eff.writeState state_e.STATE_STOPPING] : List Eff).getLast? =
      some (Eff.writeState state_e.STATE_STOPPING) :=
  ⟨C3_amended_thm.2.1 transition_func.stopped env0
      ⟨state_e.STATE_UNMONITORED, 0⟩
      (⟨state_e.STATE_STARTING, 0⟩,
       [Eff.writeState state_e.STATE_STARTING, Eff.semPost], true) rfl,
   C3_amended_thm.2.2.2 env0 ⟨state_e.STATE_STARTING, 0⟩
      state_e.STATE_STOPPING
      (⟨state_e.STATE_STOPPING, 0⟩, state_e.STATE_STARTING, false,
       [Eff.writeState state_e.STATE_STOPPING]) (by decide) rfl⟩

/-- Claim C4: when the State's `pid` is 0, `to_unmonitored` consults the
external PID store; when the store offers a positive candidate it probes
`check_process_running` and either records the candidate in `state->pid`
(alive) or clears it to 0 (dead); it then moves the watch to
`STATE_RUNNING` exactly when a live process was found and to
`STATE_STOPPED` otherwise, via `set_state`, and returns success in every
case. -/
theorem C4_to_unmon (env : Env) (s : state_t) (hpid : s.pid = 0) :
    to_unmonitored env s =
      if env.determine_pid > 0 then
        if env.check_process_running env.determine_pid then
          ({ s with state := state_e.STATE_RUNNING, pid := env.determine_pid },
           [Eff.writeState state_e.STATE_RUNNING, Eff.semPost], true)
        else
          ({ s with state := state_e.STATE_STOPPED, pid := 0 },
           [Eff.writeState state_e.STATE_STOPPED, Eff.semPost], true)
      else
        ({ s with state := state_e.STATE_STOPPED },
         [Eff.writeState state_e.STATE_STOPPED, Eff.semPost], true) := by
  have hlt : s.pid < 1 := by omega
  by_cases hd : env.determine_pid > 0
  · by_cases hr : env.check_process_running env.determine_pid
    · simp [to_unmonitored, set_state, hlt, hd, hr]
    · simp [to_unmonitored, set_state, hlt, hd, hr]
  · simp [to_unmonitored, set_state, hlt, hd]

/-- Claim C4 witness: a pid-0 state under `env0`, whose PID store offers
no candidate; the watch moves to `STOPPED`. -/
theorem C4_witness :
    to_unmonitored env0 ⟨state_e.STATE_INIT, 0⟩ =
      (⟨state_e.STATE_STOPPED, 0⟩,
       [Eff.writeState state_e.STATE_STOPPED, Eff.semPost], true) :=
  (C4_to_unmon env0 ⟨state_e.STATE_INIT, 0⟩ rfl).trans (by decide)

/-- Claim C6: the kernel-event decoder is total over all input messages:
a `FORK` event fills the fork record and reports the parent pid for
dispatch, an `EXIT` event fills the exit record and reports the exiting
pid, and every other opcode (`NONE`, `EXEC`, `UID`, `GID` or unknown)
leaves the buffer untouched and reports pid 0; being a total Lean
function, `set_event_data` never fails on any input. -/
theorem C6_decoder_total (data : process_event_data_t) (event : proc_event) :
    (event.what = proc_what.PROC_EVENT_FORK →
      set_event_data data event =
        ({ data with
            type := event_type_e.EVENT_FORK
            fork := ⟨event.fork.parent_pid, event.fork.parent_tgid,
                     event.fork.child_pid, event.fork.child_tgid⟩ },
         event.fork.parent_pid)) ∧
    (event.what = proc_what.PROC_EVENT_EXIT →
      set_event_data data event =
        ({ data with
            type := event_type_e.EVENT_EXIT
            exit := ⟨event.exit.process_pid, event.exit.exit_code,
                     event.exit.exit_signal, event.exit.process_tgid⟩ },
         event.exit.process_pid)) ∧
    (event.what ≠ proc_what.PROC_EVENT_FORK →
      event.what ≠ proc_what.PROC_EVENT_EXIT →
      set_event_data data event = (data, 0)) := by
  refine ⟨fun h => ?_, fun h => ?_, fun h1 h2 => ?_⟩
  · simp [set_event_data, h]
  · simp [set_event_data, h]
  · cases hw : event.what <;> simp [set_event_data, hw] <;>
      simp [hw] at h1 h2

/-- A sample FORK datagram (parent pid 7, child pid 8). -/
def ev_fork_sample : proc_event :=
  ⟨proc_what.PROC_EVENT_FORK, ⟨7, 7, 8, 8⟩, ⟨0, 0, 0, 0⟩⟩

/-- A sample EXIT datagram (pid 9 exiting with code 0, signal 15). -/
def ev_exit_sample : proc_event :=
  ⟨proc_what.PROC_EVENT_EXIT, ⟨0, 0, 0, 0⟩, ⟨9, 9, 0, 15⟩⟩

/-- A sample EXEC datagram, one of the discarded opcodes. -/
def ev_exec_sample : proc_event :=
  ⟨proc_what.PROC_EVENT_EXEC, ⟨0, 0, 0, 0⟩, ⟨0, 0, 0, 0⟩⟩

/-- Claim C6 witness: the decoder applied to concrete FORK, EXIT and EXEC
datagrams reports pids 7, 9 and 0 respectively. -/
theorem C6_witness :
    (set_event_data new_event_data ev_fork_sample).2 = 7 ∧
    (set_event_data new_event_data ev_exit_sample).2 = 9 ∧
    set_event_data new_event_data ev_exec_sample = (new_event_data, 0) := by
  refine ⟨?_, ?_,
    (C6_decoder_total new_event_data ev_exec_sample).2.2 (by decide)
      (by decide)⟩
  · rw [(C6_decoder_total new_event_data ev_fork_sample).1 rfl]; rfl
  · rw [(C6_decoder_total new_event_data ev_exit_sample).2.1 rfl]; rfl

/-- Per-node characterisation of `dispatch_poll_result`: the new list is
the pointwise image under `poll_new_node`, and the effect trace is one
complete `set_state` of the derived target per node for which
`poll_would_set` holds. -/
theorem dispatch_poll_chr (pid : Int) (is_running : Bool)
    (states : List (Option state_t)) :
    (dispatch_poll_result pid is_running states).1 =
      states.map (poll_new_node pid is_running) ∧
    (dispatch_poll_result pid is_running states).2 =
      (List.replicate
        (states.filter (poll_would_set pid is_running)).length
        [Eff.writeState
           (if is_running then state_e.STATE_RUNNING
            else state_e.STATE_STOPPED),
         Eff.semPost]).flatten := by
  induction states with
  | nil => exact ⟨rfl, rfl⟩
  | cons node rest ih =>
      cases node with
      | none =>
          refine ⟨?_, ?_⟩
          · simp [dispatch_poll_result, dispatch_step, poll_new_node, ih.1]
          · simp [dispatch_poll_result, dispatch_step, poll_would_set,
              List.filter_cons, ih.2]
      | some s =>
          by_cases hp : s.pid = pid
          · by_cases hn :
                (if is_running then state_e.STATE_RUNNING
                 else state_e.STATE_STOPPED) ≠ s.state
            · refine ⟨?_, ?_⟩
              · simp [dispatch_poll_result, dispatch_step, poll_new_node,
                  set_state, hp, hn, ih.1]
              · simp [dispatch_poll_result, dispatch_step, poll_would_set,
                  List.filter_cons, set_state, hp, hn, ih.2,
                  List.replicate_succ]
            · refine ⟨?_, ?_⟩
              · simp [dispatch_poll_result, dispatch_step, poll_new_node,
                  hp, hn, ih.1]
              · simp [dispatch_poll_result, dispatch_step, poll_would_set,
                  List.filter_cons, hp, hn, ih.2]
          · refine ⟨?_, ?_⟩
            · simp [dispatch_poll_result, dispatch_step, poll_new_node,
                hp, ih.1]
            · simp [dispatch_poll_result, dispatch_step, poll_would_set,
                List.filter_cons, hp, ih.2]

/-- Claim C8: `dispatch_poll_result` walks the whole states list (one
output node per input node, in order); a node is changed exactly when it
is a non-`NULL` state whose `pid` equals the argument and whose current
value differs from the derived target (`RUNNING` when `running`, else
`STOPPED`), in which case the target is written; and a `set_state`
(write + post) is issued exactly once per such node and never
otherwise. -/
theorem C8_dispatch_poll_filter (pid : Int) (is_running : Bool)
    (states : List (Option state_t)) :
    ((dispatch_poll_result pid is_running states).1.length =
      states.length) ∧
    (∀ i : Nat, (dispatch_poll_result pid is_running states).1[i]? =
      (states[i]?).map (poll_new_node pid is_running)) ∧
    ((dispatch_poll_result pid is_running states).2 =
      (List.replicate
        (states.filter (poll_would_set pid is_running)).length
        [Eff.writeState
           (if is_running then state_e.STATE_RUNNING
            else state_e.STATE_STOPPED),
         Eff.semPost]).flatten) := by
  obtain ⟨h1, h2⟩ := dispatch_poll_chr pid is_running states
  refine ⟨by rw [h1]; simp, fun i => ?_, h2⟩
  rw [h1, List.getElem?_map]

/-- Claim C10 (implicit): `dispatch_poll_result` has no positive-pid
precondition: called with pid 0, the per-node update compares against 0,
so every non-`NULL` State whose recorded child pid is 0 satisfies the
comparison and gets the derived value written; concretely, two idle
states (pid 0, values `UNMONITORED` and `STOPPED`) are both driven to
`RUNNING` by `dispatch_poll_result 0 true`. -/
theorem C10_dispatch_poll_zero_pid :
    (∀ (is_running : Bool) (states : List (Option state_t)),
      (dispatch_poll_result 0 is_running states).1 =
        states.map (poll_new_node 0 is_running)) ∧
    ((dispatch_poll_result 0 true
        [some ⟨state_e.STATE_UNMONITORED, 0⟩,
         some ⟨state_e.STATE_STOPPED, 0⟩]).1 =
      [some ⟨state_e.STATE_RUNNING, 0⟩,
       some ⟨state_e.STATE_RUNNING, 0⟩]) := by
  exact ⟨fun r st => (dispatch_poll_chr 0 r st).1, by decide⟩

/-- The FORK datagram used as the stimulus after the supposed loop exit. -/
def fork7 : proc_event :=
  ⟨proc_what.PROC_EVENT_FORK, ⟨7, 7, 8, 8⟩, ⟨0, 0, 0, 0⟩⟩

/-- Claim C2, divergence of the code from the claim: the `break` taken on
`recv = 0` (socket shutdown) and on a non-EINTR `recv` error leaves only
the inner `for` over the ready descriptors; the outer
`while (!need_exit)` re-enters `epoll_wait`, so the event loop does NOT
terminate: a later FORK datagram is still received and dispatched (first
two conjuncts, `need_exit` still false, nothing left unconsumed).  The
EINTR retry clause of the claim does hold (third conjunct: the interrupted
read is skipped without error or dispatch and processing continues), and
only the eventfd path actually ends the loop (fourth conjunct: the
remaining batch is never consumed). -/
theorem C2_recv_error_loop_bug :
    handle_process_event ⟨false, 0, []⟩
        [[Ready.netlink RecvRes.shutdown],
         [Ready.netlink (RecvRes.msg 76 fork7)]] =
      (⟨false, 76, [7]⟩, 0) ∧
    handle_process_event ⟨false, 0, []⟩
        [[Ready.netlink (RecvRes.fail false)],
         [Ready.netlink (RecvRes.msg 76 fork7)]] =
      (⟨false, 76, [7]⟩, 0) ∧
    handle_process_event ⟨false, 0, []⟩
        [[Ready.netlink (RecvRes.fail true),
          Ready.netlink (RecvRes.msg 76 fork7)]] =
      (⟨false, 76, [7]⟩, 0) ∧
    handle_process_event ⟨false, 0, []⟩
        [[Ready.eventfd], [Ready.netlink (RecvRes.msg 76 fork7)]] =
      (⟨true, 1, []⟩, 1) := by
  decide

/-- Claim C9 counterexample: on a command line whose only flag is unknown
(`getopt_long` returns its question-mark value), `nyx_initialize`'s
argument loop ignores it: no usage text is printed and initialisation
proceeds — there is no non-zero exit, contradicting the claim that
unknown flags produce usage and a non-zero exit. -/
theorem C9_counterexample :
    nyx_parse_args ⟨false, false, false⟩ [getopt_ret.unknown] =
      (ParseOutcome.proceed ⟨false, false, false⟩, ([] : List CliOut)) :=
  rfl

/-- Claim C9 (amended): an unknown flag matches no case of the switch in
`nyx_initialize` (which has no default), so it is silently ignored: as
long as `-h` is not also present, the argument loop prints nothing and
falls through to normal initialisation with whatever options the
recognised flags set. -/
theorem C9_amended_thm (flags : List getopt_ret) (opts : nyx_options)
    (hmem : getopt_ret.h ∉ flags) :
    ∃ final, nyx_parse_args opts flags =
      (ParseOutcome.proceed final, ([] : List CliOut)) := by
  induction flags generalizing opts with
  | nil => exact ⟨opts, rfl⟩
  | cons f rest ih =>
      have hrest : getopt_ret.h ∉ rest :=
        fun hx => hmem (List.mem_cons_of_mem _ hx)
      cases f with
      | q => exact ih _ hrest
      | s => exact ih _ hrest
      | C => exact ih _ hrest
      | h => exact absurd (List.mem_cons_self _ _) hmem
      | unknown => exact ih _ hrest

/-- Claim C9 amended witness: an unknown flag followed by `-q` leads to
normal initialisation with no output. -/
theorem C9_amended_witness :
    ∃ final, nyx_parse_args ⟨false, false, false⟩
        [getopt_ret.unknown, getopt_ret.q] =
      (ParseOutcome.proceed final, ([] : List CliOut)) :=
  C9_amended_thm [getopt_ret.unknown, getopt_ret.q] ⟨false, false, false⟩
    (by decide)

end Nyx
